import Mathlib

/-!
Shallow embedding of `app.py` from the EA_batteries_europe dashboard.

The module-level pandas DataFrame `df_revenues_spreads` is modelled as a
`List Row`, one `Row` per CSV record.  Zone geometries returned by the
external `entsoe.geo.utils.load_zones` call are a black box: they are
modelled as an arbitrary function from the requested zone list to a list
of `GeoRow` (zone name paired with a polygon).  Chart figures are
modelled as structures carrying exactly the data and fixed configuration
the Python code passes to plotly.

Stateful points of the Python code are made explicit:
* `create_choropleth` mutates the shared table in place
  (`df_revenues_spreads['Revenue ...'] = ....round(2)`, line 34), so its
  embedding returns the new table alongside the figure.  Crucially, the
  filtered slice is taken on lines 29-33, *before* the rounding, and
  pandas boolean-mask indexing copies, so the slice keeps the unrounded
  values; the embedding mirrors that order.
* `years.index(year)` (line 199) raises `ValueError` when the year is
  absent, so the year-advance computation returns an `Option`.
-/

/-- One record of `data/revenues_spreads.csv` as used by `app.py`:
columns `zoneName`, `Year`, `battery_capacity`, `daily_cycle_limit`,
`Revenue [€/MW/year]`, `average_daily_spread`. -/
structure Row where
  zoneName : String
  year : Int
  battery_capacity : Int
  daily_cycle_limit : Int
  revenue : ℚ
  average_daily_spread : ℚ
deriving DecidableEq, Repr

/-- A zone polygon as returned by the external geometry provider;
its content is opaque to `app.py`. -/
structure Geom where
  boundary : List (ℚ × ℚ)
deriving DecidableEq, Repr

/-- One row of the GeoDataFrame returned by `utils.load_zones`. -/
structure GeoRow where
  zoneName : String
  geometry : Geom
deriving DecidableEq, Repr

/-- Round-half-to-even to an integer, as numpy/pandas `round` does
(`Series.round` rounds ties to the nearest even value). -/
def roundHalfEven (x : ℚ) : ℤ :=
  if x - ⌊x⌋ < 1/2 then ⌊x⌋
  else if 1/2 < x - ⌊x⌋ then ⌊x⌋ + 1
  else if ⌊x⌋ % 2 = 0 then ⌊x⌋ else ⌊x⌋ + 1

/-- `Series.round(2)`: round to 2 decimal places, ties to even. -/
def round2 (x : ℚ) : ℚ := (roundHalfEven (100 * x) : ℚ) / 100

/-- One plotted zone of the choropleth figure: the location (the
`zoneName` index), its geometry, and its color value (the revenue of the
merged slice row, or null when the left join found no match). -/
structure ChoroplethEntry where
  zone : String
  geometry : Geom
  color : Option ℚ
deriving DecidableEq, Repr

/-- The choropleth figure specification built by `px.choropleth` plus the
`update_geos`/`update_layout` calls in `create_choropleth`. -/
structure ChoroplethFig where
  entries : List ChoroplethEntry
  rangeColor : ℚ × ℚ
  colorScale : String
  projection : String
  fitbounds : String
  height : Nat
  width : Nat
deriving DecidableEq, Repr

/-- `create_choropleth` (app.py lines 14-51).  `load_zones` stands for the
external `utils.load_zones(zones, pd.Timestamp('20230101'))` call.  The
function returns the new shared table (reflecting the in-place rounding of
the revenue column on line 34) together with the figure.  The slice is
taken before the rounding, exactly as in the source, so the figure's color
values come from the unrounded copy. -/
def create_choropleth (load_zones : List String → List GeoRow) (df : List Row)
    (year battery_capacity daily_cycle_limit : Int) : List Row × ChoroplethFig :=
  let zones := (df.map Row.zoneName).eraseDups
  let geo_df := load_zones zones
  let df_slice := df.filter (fun r =>
    r.year == year && r.battery_capacity == battery_capacity &&
      r.daily_cycle_limit == daily_cycle_limit)
  let df2 := df.map (fun r => { r with revenue := round2 r.revenue })
  let merged := geo_df.flatMap (fun g =>
    let ms := df_slice.filter (fun r => r.zoneName == g.zoneName)
    if ms.isEmpty then [{ zone := g.zoneName, geometry := g.geometry, color := none }]
    else ms.map (fun r =>
      { zone := g.zoneName, geometry := g.geometry, color := some r.revenue }))
  (df2,
   { entries := merged, rangeColor := (0, 160000), colorScale := "inferno",
     projection := "mercator", fitbounds := "locations", height := 650, width := 750 })

/-- `list(range(2016, 2023))` from app.py line 198: the fixed animation
year range. -/
def years_range : List Int := [2016, 2017, 2018, 2019, 2020, 2021, 2022]

/-- The values selectable on `dcc.Slider(2016, 2023, 1, ...)`
(app.py line 132): integers from the minimum 2016 to the maximum 2023 in
steps of 1. -/
def slider_years : List Int := [2016, 2017, 2018, 2019, 2020, 2021, 2022, 2023]

/-- The year computation of `update_choropleth_interval`
(app.py lines 197-203).  When the interval component is enabled the year
advances one step through `years_range`, cyclically; `list.index` raises
`ValueError` when the year is not in the list, modelled by `none`.  When
the interval is disabled the year is returned unchanged. -/
def update_year (interval_disabled : Bool) (year : Int) : Option Int :=
  if interval_disabled = false then
    match years_range.indexOf? year with
    | none => none
    | some index => some (years_range.getD ((index + 1) % years_range.length) year)
  else
    some year

/-- The callback `update_choropleth_interval` (app.py lines 172-204).
Inputs mirror the declared Dash dependencies: the interval trigger `n`
(unused by the body, exactly as in the source), the interval's disabled
state, the slider year and the two radio values; `df` is the shared table
read by `create_choropleth`.  Returns the figure, the new shared table and
the year written back to the slider, or `none` when `years.index` raises. -/
def update_choropleth_interval (load_zones : List String → List GeoRow) (df : List Row)
    (n : Option Nat) (interval_disabled : Bool)
    (year battery_capacity daily_cycle_limit : Int) :
    Option ((List Row × ChoroplethFig) × Int) :=
  match update_year interval_disabled year with
  | none => none
  | some y => some (create_choropleth load_zones df y battery_capacity daily_cycle_limit, y)

/-- N enabled interval ticks of the year computation, starting from a
given year; `none` as soon as one tick raises. -/
def tickN : Nat → Int → Option Int
  | 0, y => some y
  | Nat.succ k, y =>
    match update_year false y with
    | none => none
    | some y2 => tickN k y2

/-- Python truthiness of the `n_clicks` argument: `None` and `0` are
falsy, every other click count is truthy. -/
def pyTruthy : Option Nat → Bool
  | none => false
  | some k => k != 0

/-- The callback `toggle` (app.py lines 248-266): `if n: return not
playing; return playing`. -/
def toggle (n : Option Nat) (playing : Bool) : Bool :=
  if pyTruthy n then !playing else playing

/-- The filter predicate of `bubble_chart` (app.py lines 222-225). -/
def bubbleSlicePred (battery_capacity daily_cycle_limit : Int) (r : Row) : Bool :=
  r.battery_capacity == battery_capacity && r.daily_cycle_limit == daily_cycle_limit

/-- Lexicographic comparison of char lists by code point, the order
pandas uses on string columns. -/
def charListLe : List Char → List Char → Bool
  | [], _ => true
  | _ :: _, [] => false
  | a :: as, b :: bs =>
    if a.toNat < b.toNat then true
    else if b.toNat < a.toNat then false
    else charListLe as bs

/-- String comparison by code points. -/
def strLe (a b : String) : Bool := charListLe a.data b.data

/-- Comparator realising `sort_values("zoneName", ascending=False)`:
descending zone names. -/
def zoneDesc (a b : Row) : Bool := strLe b.zoneName a.zoneName

/-- One marker of the bubble chart: y = zone (column renamed from
`zoneName` to `Zone`), x = year, color = revenue, size = average daily
spread (renamed for display). -/
structure BubblePoint where
  zone : String
  year : Int
  revenue : ℚ
  spread : ℚ
deriving DecidableEq, Repr

/-- The marker built from a table row by `px.scatter`. -/
def toBubblePoint (r : Row) : BubblePoint :=
  { zone := r.zoneName, year := r.year, revenue := r.revenue,
    spread := r.average_daily_spread }

/-- The scatter figure built by `bubble_chart`, with the fixed
configuration the code applies. -/
structure BubbleFig where
  points : List BubblePoint
  rangeColor : ℚ × ℚ
  colorScale : String
  sizeref : ℚ
  height : Nat
  width : Nat
  showlegend : Bool
deriving DecidableEq, Repr

/-- The callback `bubble_chart` (app.py lines 207-245): filter the shared
table on the two radio values, sort by zone name descending, rename for
display, and plot one marker per row.  Reads the table and never writes
it. -/
def bubble_chart (df : List Row) (battery_capacity daily_cycle_limit : Int) : BubbleFig :=
  let df_slice := df.filter (bubbleSlicePred battery_capacity daily_cycle_limit)
  let sorted := df_slice.mergeSort zoneDesc
  { points := sorted.map toBubblePoint,
    rangeColor := (0, 160000), colorScale := "inferno", sizeref := 18/100,
    height := 830, width := 1060, showlegend := false }

/-- The fields of a row other than the revenue column. -/
def nonRevenueFields (r : Row) : String × Int × Int × Int × ℚ :=
  (r.zoneName, r.year, r.battery_capacity, r.daily_cycle_limit, r.average_daily_spread)

/-- The year at a given position of the fixed animation range. -/
def yearAt (i : Nat) : Int := years_range.getD i 0

/-- A geometry provider that returns a polygon for every requested zone,
used for concrete evaluations. -/
def demoLoadZones (zones : List String) : List GeoRow :=
  zones.map (fun z => { zoneName := z, geometry := { boundary := [] } })

/-- The end-to-end scenario table of the spec — zone DE, year 2020,
capacity 1, cycle limit 1, revenue 50000.004, spread 12.3 — extended with
one FR record for a different year, so that FR has geometry but no record
matching the (2020, 1, 1) triple. -/
def demoTable : List Row :=
  [{ zoneName := "DE", year := 2020, battery_capacity := 1, daily_cycle_limit := 1,
     revenue := 50000004/1000, average_daily_spread := 123/10 },
   { zoneName := "FR", year := 2019, battery_capacity := 1, daily_cycle_limit := 1,
     revenue := 40000, average_daily_spread := 10 }]

/-- A one-row table whose revenue is not a 2-decimal value. -/
def demoTable6 : List Row :=
  [{ zoneName := "NL", year := 2019, battery_capacity := 1, daily_cycle_limit := 1,
     revenue := 123456/1000, average_daily_spread := 1 }]

/-- A three-row table exercising the bubble-chart filter and sort. -/
def demoTable7 : List Row :=
  [{ zoneName := "DE", year := 2020, battery_capacity := 1, daily_cycle_limit := 1,
     revenue := 100, average_daily_spread := 1 },
   { zoneName := "NL", year := 2019, battery_capacity := 1, daily_cycle_limit := 1,
     revenue := 50, average_daily_spread := 2 },
   { zoneName := "NL", year := 2019, battery_capacity := 2, daily_cycle_limit := 1,
     revenue := 60, average_daily_spread := 2 }]

set_option maxRecDepth 10000

/-! Helper lemmas shared by the claim theorems. -/

/-- The year output of the callback is exactly the year-advance
computation: the figure construction never alters it. -/
theorem uci_year_eq (load_zones : List String → List GeoRow) (df : List Row)
    (n : Option Nat) (interval_disabled : Bool) (year cap cyc : Int) :
    (update_choropleth_interval load_zones df n interval_disabled year cap cyc).map
        (fun r => r.2) = update_year interval_disabled year := by
  unfold update_choropleth_interval
  cases h : update_year interval_disabled year <;> simp [h]

/-- One enabled tick at position `i` of the fixed range advances to
position `(i + 1) % 7`. -/
theorem update_year_at :
    ∀ i : Fin 7, update_year false (yearAt i) = some (yearAt (((i : Nat) + 1) % 7)) := by
  decide

/-- Closed form of `N` consecutive enabled ticks from position `i`. -/
theorem tickN_at :
    ∀ (N : Nat) (i : Fin 7), tickN N (yearAt i) = some (yearAt (((i : Nat) + N) % 7)) := by
  intro N
  induction N with
  | zero =>
    intro i
    simp [tickN, Nat.mod_eq_of_lt i.isLt]
  | succ k ih =>
    intro i
    have h := update_year_at i
    have h2 := ih ⟨((i : Nat) + 1) % 7, Nat.mod_lt _ (by omega)⟩
    simp only [tickN, h, h2]
    have h3 : (((i : Nat) + 1) % 7 + k) % 7 = ((i : Nat) + (k + 1)) % 7 := by omega
    simp [h3]

/-! Claim theorems. -/

/-- C3: for every boolean state `playing`, `toggle` returns `playing`
unchanged when its click-count argument is `None` or `0` (no genuine
click), and returns `not playing` for every truthy click count: it flips
PAUSED and PLAYING exactly on click-triggered invocations and is a no-op
otherwise. -/
theorem toggle_flips_only_on_click (playing : Bool) :
    toggle none playing = playing ∧
    toggle (some 0) playing = playing ∧
    ∀ k : Nat, k ≠ 0 → toggle (some k) playing = !playing := by
  refine ⟨rfl, rfl, ?_⟩
  intro k hk
  simp [toggle, pyTruthy, hk]

/-- Witness for C3 at `playing = true` and click count 1. -/
theorem toggle_flips_only_on_click_witness :
    toggle none true = true ∧ toggle (some 0) true = true ∧
    toggle (some 1) true = !true :=
  ⟨(toggle_flips_only_on_click true).1, (toggle_flips_only_on_click true).2.1,
    (toggle_flips_only_on_click true).2.2 1 (by decide)⟩

/-- C8: while PAUSED (interval component disabled) the choropleth update
callback never changes the year: for every input year it returns that same
year unchanged, whatever the other inputs and the shared table are. -/
theorem paused_tick_keeps_year (load_zones : List String → List GeoRow)
    (df : List Row) (n : Option Nat) (year cap cyc : Int) :
    (update_choropleth_interval load_zones df n true year cap cyc).map
        (fun r => r.2) = some year := by
  rw [uci_year_eq]
  rfl

/-- C4: while PLAYING, one tick of the callback starting at position `i`
of the fixed year range returns the year at position `(i + 1) mod 7`;
`N` consecutive ticks starting at position `i` reach position
`(i + N) mod 7`; and at 2022, the last year of the range, the next tick
yields 2016. -/
theorem playing_tick_advances_year (load_zones : List String → List GeoRow)
    (df : List Row) (n : Option Nat) (cap cyc : Int) (i : Fin 7) (N : Nat) :
    (update_choropleth_interval load_zones df n false (yearAt i) cap cyc).map
        (fun r => r.2) = some (yearAt (((i : Nat) + 1) % 7)) ∧
    tickN N (yearAt i) = some (yearAt (((i : Nat) + N) % 7)) ∧
    (update_choropleth_interval load_zones df n false 2022 cap cyc).map
        (fun r => r.2) = some 2016 := by
  refine ⟨?_, tickN_at N i, ?_⟩
  · rw [uci_year_eq]
    exact update_year_at i
  · rw [uci_year_eq]
    decide

/-- C5 counterexample: with the animation PLAYING, a manual selection of
year 2016 does not take effect: the callback returns 2017, not the
requested 2016. -/
theorem manual_year_overridden_while_playing :
    (update_choropleth_interval demoLoadZones demoTable none false 2016 1 1).map
        (fun r => r.2) = some 2017 ∧ (2017 : Int) ≠ 2016 := by
  constructor
  · rw [uci_year_eq]
    decide
  · decide

/-- C5 amended: a manual change of the year selector takes effect
immediately only while PAUSED, where the callback returns exactly the
requested year; while PLAYING, the callback instead returns the successor
of the requested year in the fixed range (the manually requested year is
advanced one step before display). -/
theorem manual_year_effect_depends_on_state (load_zones : List String → List GeoRow)
    (df : List Row) (n : Option Nat) (cap cyc : Int) (year : Int) (i : Fin 7) :
    (update_choropleth_interval load_zones df n true year cap cyc).map
        (fun r => r.2) = some year ∧
    (update_choropleth_interval load_zones df n false (yearAt i) cap cyc).map
        (fun r => r.2) = some (yearAt (((i : Nat) + 1) % 7)) := by
  constructor
  · rw [uci_year_eq]
    rfl
  · rw [uci_year_eq]
    exact update_year_at i

/-- C10: while the animation is enabled, every invocation of the callback
advances the year one step through the fixed range, and the year output is
a function of the requested year alone: it does not depend on the interval
trigger value or on the battery-capacity and cycle-limit inputs, so
invocations fired by a radio-button change advance the year exactly like
timer ticks. -/
theorem enabled_callback_always_advances (load_zones : List String → List GeoRow)
    (df : List Row) (n m : Option Nat) (cap cyc cap2 cyc2 : Int) (i : Fin 7)
    (year : Int) :
    (update_choropleth_interval load_zones df n false (yearAt i) cap cyc).map
        (fun r => r.2) = some (yearAt (((i : Nat) + 1) % 7)) ∧
    (update_choropleth_interval load_zones df n false year cap cyc).map
        (fun r => r.2) =
      (update_choropleth_interval load_zones df m false year cap2 cyc2).map
        (fun r => r.2) := by
  constructor
  · rw [uci_year_eq]
    exact update_year_at i
  · rw [uci_year_eq, uci_year_eq]

/-- C2: the claim fails on the code.  Year 2023 is selectable on the year
slider (`dcc.Slider(2016, 2023, 1)`), but the fixed animation range is
`list(range(2016, 2023))`, which stops at 2022; with the animation enabled
the callback's `years.index(2023)` lookup fails (raises `ValueError`), so
the error branch is reachable from a selectable year. -/
theorem slider_year_2023_breaks_animation :
    (2023 : Int) ∈ slider_years ∧
    (2023 : Int) ∉ years_range ∧
    update_year false 2023 = none ∧
    update_choropleth_interval demoLoadZones demoTable none false 2023 1 1 = none := by
  refine ⟨by decide, by decide, by decide, ?_⟩
  unfold update_choropleth_interval
  simp [show update_year false 2023 = none from by decide]

/-- Rounding an integer-valued rational leaves it unchanged. -/
theorem roundHalfEven_intCast (n : ℤ) : roundHalfEven (n : ℚ) = n := by
  unfold roundHalfEven
  rw [Int.floor_intCast]
  norm_num

/-- `Series.round(2)` is idempotent: rounding an already-rounded value
changes nothing. -/
theorem round2_idem (x : ℚ) : round2 (round2 x) = round2 x := by
  unfold round2
  have h : (100 : ℚ) * ((roundHalfEven (100 * x) : ℚ) / 100)
      = (roundHalfEven (100 * x) : ℚ) := by
    rw [mul_comm, div_mul_cancel₀]
    norm_num
  rw [h, roundHalfEven_intCast]

/-- C6 counterexample: a choropleth build on a table holding the revenue
123.456 changes the shared table, so the table is not immutable for the
process lifetime. -/
theorem choropleth_build_changes_table :
    (create_choropleth demoLoadZones demoTable6 2019 1 1).1 ≠ demoTable6 := by
  with_unfolding_all decide

/-- C6 amended: the shared table is not immutable — a choropleth build
replaces it by the table whose revenue column is rounded in place to 2
decimals, every other field of every row unchanged; this rewrite is
idempotent, so the table is fixed from the first build on.  The
bubble-chart builder and the toggle only read shared state: their
embeddings take the table (or the flag) as input and return no modified
table, so they leave every cell unchanged. -/
theorem table_changed_only_by_rounding (load_zones : List String → List GeoRow)
    (df : List Row) (y cap cyc y2 cap2 cyc2 : Int) :
    (create_choropleth load_zones df y cap cyc).1
        = df.map (fun r => { r with revenue := round2 r.revenue }) ∧
    (create_choropleth load_zones
        (create_choropleth load_zones df y cap cyc).1 y2 cap2 cyc2).1
      = (create_choropleth load_zones df y cap cyc).1 := by
  constructor
  · rfl
  · show (df.map _).map _ = df.map _
    rw [List.map_map]
    have h : ((fun r => { r with revenue := round2 r.revenue }) ∘
        (fun r => { r with revenue := round2 r.revenue }))
        = fun r : Row => { r with revenue := round2 r.revenue } := by
      funext r
      simp [Function.comp, round2_idem]
    rw [h]

/-- C9: the only effect of a choropleth-builder call on the shared table
is rounding the revenue column in place to 2 decimal places: the row count
is unchanged, every non-revenue field of every row is unchanged, each
revenue cell becomes its 2-decimal rounding, and the call returns a fresh
figure object alongside. -/
theorem choropleth_frame_effect (load_zones : List String → List GeoRow)
    (df : List Row) (y cap cyc : Int) :
    ((create_choropleth load_zones df y cap cyc).1).length = df.length ∧
    (∀ j : Nat, ((create_choropleth load_zones df y cap cyc).1[j]?).map nonRevenueFields
        = (df[j]?).map nonRevenueFields) ∧
    (∀ j : Nat, ((create_choropleth load_zones df y cap cyc).1[j]?).map Row.revenue
        = (df[j]?).map (fun r => round2 r.revenue)) := by
  refine ⟨?_, ?_, ?_⟩
  · show (df.map _).length = df.length
    simp
  · intro j
    show ((df.map _)[j]?).map nonRevenueFields = (df[j]?).map nonRevenueFields
    rw [List.getElem?_map]
    cases h : df[j]? <;> simp [nonRevenueFields]
  · intro j
    show ((df.map _)[j]?).map Row.revenue = (df[j]?).map (fun r => round2 r.revenue)
    rw [List.getElem?_map]
    cases h : df[j]? <;> simp

/-- C1: the claim fails on the code.  On a single call over a freshly
loaded table, the filtered slice is taken (lines 29-33) before the revenue
column is rounded in place (line 34), and pandas boolean-mask indexing
copies, so the zone DE with a record matching (2020, 1, 1) is colored with
the unrounded revenue 50000.004 instead of 50000.00; the zone FR, which
has geometry but no matching record, does get the null value the claim
describes.  Only from the second call on (table already rounded in place)
does the displayed value equal the rounded revenue. -/
theorem first_choropleth_call_skips_rounding :
    (create_choropleth demoLoadZones demoTable 2020 1 1).2.entries.map
        (fun e => (e.zone, e.color))
      = [("DE", some (50000004/1000 : ℚ)), ("FR", none)] ∧
    round2 (50000004/1000 : ℚ) = 50000 ∧
    (50000004/1000 : ℚ) ≠ (50000 : ℚ) ∧
    (create_choropleth demoLoadZones
        (create_choropleth demoLoadZones demoTable 2020 1 1).1 2020 1 1).2.entries.map
        (fun e => (e.zone, e.color))
      = [("DE", some (50000 : ℚ)), ("FR", none)] := by
  refine ⟨?_, ?_, ?_, ?_⟩
  · with_unfolding_all rfl
  · with_unfolding_all rfl
  · with_unfolding_all decide
  · with_unfolding_all rfl

/-- A head-to-head consequence of the lexicographic comparison. -/
theorem charListLe_head_le (x y : Char) (xs ys : List Char)
    (h : charListLe (x :: xs) (y :: ys) = true) : x.toNat ≤ y.toNat := by
  simp only [charListLe] at h
  by_cases h1 : x.toNat < y.toNat
  · omega
  · rw [if_neg h1] at h
    by_cases h2 : y.toNat < x.toNat
    · rw [if_pos h2] at h
      cases h
    · omega

/-- Transitivity of the lexicographic comparison. -/
theorem charListLe_trans :
    ∀ a b c : List Char, charListLe a b = true → charListLe b c = true →
      charListLe a c = true := by
  intro a
  induction a with
  | nil =>
    intro b c _ _
    rfl
  | cons x xs ih =>
    intro b c hab hbc
    cases b with
    | nil => simp [charListLe] at hab
    | cons y ys =>
      cases c with
      | nil => simp [charListLe] at hbc
      | cons z zs =>
        have hxy := charListLe_head_le x y xs ys hab
        have hyz := charListLe_head_le y z ys zs hbc
        simp only [charListLe] at hab hbc ⊢
        by_cases hxz : x.toNat < z.toNat
        · rw [if_pos hxz]
        · rw [if_neg hxz, if_neg (by omega)]
          rw [if_neg (by omega : ¬ x.toNat < y.toNat), if_neg (by omega)] at hab
          rw [if_neg (by omega : ¬ y.toNat < z.toNat), if_neg (by omega)] at hbc
          exact ih ys zs hab hbc

/-- Totality of the lexicographic comparison. -/
theorem charListLe_total :
    ∀ a b : List Char, (charListLe a b || charListLe b a) = true := by
  intro a
  induction a with
  | nil =>
    intro b
    rfl
  | cons x xs ih =>
    intro b
    cases b with
    | nil => simp [charListLe]
    | cons y ys =>
      simp only [charListLe]
      by_cases h1 : x.toNat < y.toNat
      · rw [if_pos h1]
        simp
      · by_cases h2 : y.toNat < x.toNat
        · rw [if_neg h1, if_pos h2, if_pos h2]
          simp
        · rw [if_neg h1, if_neg h2, if_neg h2, if_neg h1]
          exact ih ys

/-- Transitivity of the descending zone comparator. -/
theorem zoneDesc_trans (a b c : Row) (hab : zoneDesc a b = true)
    (hbc : zoneDesc b c = true) : zoneDesc a c = true :=
  charListLe_trans c.zoneName.data b.zoneName.data a.zoneName.data hbc hab

/-- Totality of the descending zone comparator. -/
theorem zoneDesc_total (a b : Row) : (zoneDesc a b || zoneDesc b a) = true :=
  charListLe_total b.zoneName.data a.zoneName.data

/-- In a list of rows whose (zone, year) keys are pairwise distinct, a key
that occurs is counted exactly once. -/
theorem countP_key_present (z : String) (y : Int) :
    ∀ l : List Row,
      l.Pairwise (fun r s => r.zoneName ≠ s.zoneName ∨ r.year ≠ s.year) →
      (∃ r ∈ l, r.zoneName = z ∧ r.year = y) →
      l.countP (fun r => r.zoneName == z && r.year == y) = 1 := by
  intro l
  induction l with
  | nil =>
    intro _ hex
    simp at hex
  | cons a t ih =>
    intro hp hex
    rcases List.pairwise_cons.mp hp with ⟨ha, ht⟩
    by_cases hc : a.zoneName = z ∧ a.year = y
    · have ht0 : t.countP (fun r => r.zoneName == z && r.year == y) = 0 := by
        rw [List.countP_eq_zero]
        intro r hr hrc
        simp only [Bool.and_eq_true, beq_iff_eq] at hrc
        rcases ha r hr with h1 | h1
        · exact h1 (by rw [hc.1, hrc.1])
        · exact h1 (by rw [hc.2, hrc.2])
      rw [List.countP_cons, ht0, if_pos (by simp [hc.1, hc.2])]
    · have hex2 : ∃ r ∈ t, r.zoneName = z ∧ r.year = y := by
        rcases hex with ⟨r, hr, hrz⟩
        rcases List.mem_cons.mp hr with rfl | hrt
        · exact absurd hrz hc
        · exact ⟨r, hrt, hrz⟩
      have hpa : ¬ ((a.zoneName == z && a.year == y) = true) := by
        simp only [Bool.and_eq_true, beq_iff_eq]
        exact hc
      rw [List.countP_cons, if_neg hpa, ih ht hex2]

/-- A key that does not occur in a list of rows is counted zero times. -/
theorem countP_key_absent (z : String) (y : Int) (l : List Row)
    (h : ¬ ∃ r ∈ l, r.zoneName = z ∧ r.year = y) :
    l.countP (fun r => r.zoneName == z && r.year == y) = 0 := by
  rw [List.countP_eq_zero]
  intro r hr hrc
  simp only [Bool.and_eq_true, beq_iff_eq] at hrc
  exact h ⟨r, hr, hrc.1, hrc.2⟩

/-- C7: for every (battery_capacity, daily_cycle_limit) pair the
bubble-chart builder plots exactly the records matching the two
parameters across all years (the points are a permutation of the filtered
slice), in descending zone-name order; when the slice's (zone, year) keys
are pairwise distinct — the dataset invariant — each combination present
in the slice yields exactly one point and each absent combination yields
none; an empty slice yields an empty chart rather than an error. -/
theorem bubble_chart_points_spec (df : List Row) (cap cyc : Int)
    (h : (df.filter (bubbleSlicePred cap cyc)).Pairwise
        (fun r s => r.zoneName ≠ s.zoneName ∨ r.year ≠ s.year)) :
    ((bubble_chart df cap cyc).points).Perm
        ((df.filter (bubbleSlicePred cap cyc)).map toBubblePoint) ∧
    ((bubble_chart df cap cyc).points).Pairwise
        (fun p q => strLe q.zone p.zone = true) ∧
    (∀ z y, (∃ r ∈ df.filter (bubbleSlicePred cap cyc), r.zoneName = z ∧ r.year = y) →
        ((bubble_chart df cap cyc).points).countP
            (fun p => p.zone == z && p.year == y) = 1) ∧
    (∀ z y, (¬ ∃ r ∈ df.filter (bubbleSlicePred cap cyc), r.zoneName = z ∧ r.year = y) →
        ((bubble_chart df cap cyc).points).countP
            (fun p => p.zone == z && p.year == y) = 0) ∧
    (df.filter (bubbleSlicePred cap cyc) = [] → (bubble_chart df cap cyc).points = []) := by
  have hperm : ((bubble_chart df cap cyc).points).Perm
      ((df.filter (bubbleSlicePred cap cyc)).map toBubblePoint) :=
    (List.mergeSort_perm (df.filter (bubbleSlicePred cap cyc)) zoneDesc).map toBubblePoint
  have hcount : ∀ z y, ((bubble_chart df cap cyc).points).countP
      (fun p => p.zone == z && p.year == y)
      = (df.filter (bubbleSlicePred cap cyc)).countP
          (fun r => r.zoneName == z && r.year == y) := by
    intro z y
    rw [hperm.countP_eq, List.countP_map]
    rfl
  refine ⟨hperm, ?_, ?_, ?_, ?_⟩
  · exact (@List.sorted_mergeSort Row zoneDesc
      (fun a b c hab hbc => zoneDesc_trans a b c hab hbc)
      (fun a b => zoneDesc_total a b)
      (df.filter (bubbleSlicePred cap cyc))).map toBubblePoint
      (fun a b hab => hab)
  · intro z y hex
    rw [hcount]
    exact countP_key_present z y (df.filter (bubbleSlicePred cap cyc)) h hex
  · intro z y hab
    rw [hcount]
    exact countP_key_absent z y (df.filter (bubbleSlicePred cap cyc)) hab
  · intro he
    show ((df.filter (bubbleSlicePred cap cyc)).mergeSort zoneDesc).map toBubblePoint = []
    rw [he]
    simp

/-- Witness for C7 on a concrete three-row table: the (NL, 2019)
combination present in the (1, 1) slice yields exactly one point. -/
theorem bubble_chart_points_spec_witness :
    (bubble_chart demoTable7 1 1).points.countP
        (fun p => p.zone == "NL" && p.year == 2019) = 1 :=
  (bubble_chart_points_spec demoTable7 1 1 (by decide)).2.2.1 "NL" 2019 (by decide)
